import Mathlib

/-!
Verification of the healthinsight biomarker analytics core.

The JavaScript sources are embedded shallowly:
* JS numbers are modelled as exact rationals (`ℚ`); the non-finite values
  `NaN`, `Infinity` and `-Infinity` that JS arithmetic can produce are made
  explicit by the `JsVal` type, with division, multiplication, subtraction,
  rounding and comparisons following the IEEE/JS rules for those values.
* A reference-range argument can be a number, `null`, or `undefined`
  (absent); the `NumArg` type keeps the three cases apart because JS
  comparisons treat them differently (`x < undefined` is false,
  `x < null` compares against 0).
* Strings are Lean `String`s, `String.prototype.includes` is substring
  containment on the character lists.
-/

namespace HealthInsight

/-- JS `Math.round`: round half toward positive infinity. -/
def jsRound (q : ℚ) : ℤ := ⌊q + 1/2⌋

/-- A JS number: either a finite value (modelled exactly as a rational),
`NaN`, `Infinity` or `-Infinity`. -/
inductive JsVal where
  | num (q : ℚ)
  | nan
  | pinf
  | ninf
deriving DecidableEq, Repr

namespace JsVal

/-- JS subtraction on possibly non-finite values. -/
def sub : JsVal → JsVal → JsVal
  | num a, num b => num (a - b)
  | nan, _ => nan
  | _, nan => nan
  | pinf, pinf => nan
  | pinf, ninf => pinf
  | pinf, num _ => pinf
  | ninf, ninf => nan
  | ninf, pinf => ninf
  | ninf, num _ => ninf
  | num _, pinf => ninf
  | num _, ninf => pinf

/-- JS addition on possibly non-finite values. -/
def add : JsVal → JsVal → JsVal
  | num a, num b => num (a + b)
  | nan, _ => nan
  | _, nan => nan
  | pinf, pinf => pinf
  | pinf, ninf => nan
  | pinf, num _ => pinf
  | ninf, ninf => ninf
  | ninf, pinf => nan
  | ninf, num _ => ninf
  | num _, pinf => pinf
  | num _, ninf => ninf

/-- JS multiplication on possibly non-finite values. -/
def mul : JsVal → JsVal → JsVal
  | num a, num b => num (a * b)
  | nan, _ => nan
  | _, nan => nan
  | pinf, pinf => pinf
  | pinf, ninf => ninf
  | ninf, pinf => ninf
  | ninf, ninf => pinf
  | pinf, num b => if b = 0 then nan else if 0 < b then pinf else ninf
  | num a, pinf => if a = 0 then nan else if 0 < a then pinf else ninf
  | ninf, num b => if b = 0 then nan else if 0 < b then ninf else pinf
  | num a, ninf => if a = 0 then nan else if 0 < a then ninf else pinf

/-- JS division on possibly non-finite values (division by zero yields a
signed infinity, `0/0` yields `NaN`). -/
def div : JsVal → JsVal → JsVal
  | num a, num b =>
      if b = 0 then (if a = 0 then nan else if 0 < a then pinf else ninf)
      else num (a / b)
  | nan, _ => nan
  | _, nan => nan
  | pinf, pinf => nan
  | pinf, ninf => nan
  | ninf, pinf => nan
  | ninf, ninf => nan
  | num _, pinf => num 0
  | num _, ninf => num 0
  | pinf, num b => if b < 0 then ninf else pinf
  | ninf, num b => if b < 0 then pinf else ninf

/-- JS `Math.round` lifted to possibly non-finite values. -/
def round : JsVal → JsVal
  | num q => num (jsRound q)
  | nan => nan
  | pinf => pinf
  | ninf => ninf

/-- JS negation. -/
def neg : JsVal → JsVal
  | num q => num (-q)
  | nan => nan
  | pinf => ninf
  | ninf => pinf

/-- JS `Math.abs` lifted to possibly non-finite values. -/
def abs : JsVal → JsVal
  | num q => num |q|
  | nan => nan
  | pinf => pinf
  | ninf => pinf

/-- JS comparison `v < q` against a finite threshold (`NaN` compares false). -/
def ltQ : JsVal → ℚ → Bool
  | num a, q => decide (a < q)
  | nan, _ => false
  | pinf, _ => false
  | ninf, _ => true

/-- JS comparison `v > q` against a finite threshold (`NaN` compares false). -/
def gtQ : JsVal → ℚ → Bool
  | num a, q => decide (q < a)
  | nan, _ => false
  | pinf, _ => true
  | ninf, _ => false

/-- JS comparison `v >= q` against a finite threshold (`NaN` compares false). -/
def geQ : JsVal → ℚ → Bool
  | num a, q => decide (q ≤ a)
  | nan, _ => false
  | pinf, _ => true
  | ninf, _ => false

end JsVal

/-- A caller-supplied reference bound: a number, JS `null`, or absent
(JS `undefined`). -/
inductive NumArg where
  | num (q : ℚ)
  | null
  | undef
deriving DecidableEq, Repr

namespace NumArg

/-- Numeric coercion used by JS arithmetic: `null` coerces to `0`,
`undefined` to `NaN`. -/
def toJs : NumArg → JsVal
  | num q => JsVal.num q
  | null => JsVal.num 0
  | undef => JsVal.nan

/-- JS comparison `v < a` for a finite left operand: `v < undefined` is
false (`NaN` comparison), `v < null` is `v < 0`. -/
def ltArg (v : ℚ) : NumArg → Bool
  | num m => decide (v < m)
  | null => decide (v < 0)
  | undef => false

/-- JS comparison `v > a` for a finite left operand. -/
def gtArg (v : ℚ) : NumArg → Bool
  | num m => decide (m < v)
  | null => decide (0 < v)
  | undef => false

/-- JS truthiness test `!a` on a reference bound: `undefined`, `null` and
`0` are falsy. -/
def isFalsy : NumArg → Bool
  | num q => decide (q = 0)
  | null => true
  | undef => true

end NumArg

/-- Result record of `determineAbnormalStatus` (`normalizer.js`): a status
string, a severity string and a percent-from-range value. -/
structure StatusResult where
  status : String
  severity : String
  percentFromRange : JsVal
deriving DecidableEq, Repr

/-- Translation of `determineAbnormalStatus(value, minRange, maxRange)`
from `src/backend/src/utils/normalizer.js` lines 177-205. -/
def determineAbnormalStatus (value : ℚ) (minRange maxRange : NumArg) : StatusResult :=
  if NumArg.ltArg value minRange then
    let m := minRange.toJs
    let severity := JsVal.div (JsVal.sub m (JsVal.num value)) m
    { status := "below_range"
      severity := if severity.gtQ (1/2) then "high" else "low"
      percentFromRange :=
        (JsVal.round (JsVal.mul (JsVal.sub (JsVal.num 1)
          (JsVal.div (JsVal.num value) m)) (JsVal.num 100))).neg }
  else if NumArg.gtArg value maxRange then
    let M := maxRange.toJs
    let severity := JsVal.div (JsVal.sub (JsVal.num value) M) M
    { status := "above_range"
      severity := if severity.gtQ (1/2) then "high" else "low"
      percentFromRange :=
        JsVal.round (JsVal.mul (JsVal.sub
          (JsVal.div (JsVal.num value) M) (JsVal.num 1)) (JsVal.num 100)) }
  else
    let rangeWidth := JsVal.sub maxRange.toJs minRange.toJs
    let position := JsVal.div (JsVal.sub (JsVal.num value) minRange.toJs) rangeWidth
    if position.ltQ (1/10) then
      { status := "borderline_low", severity := "minimal", percentFromRange := JsVal.num 0 }
    else if position.gtQ (9/10) then
      { status := "borderline_high", severity := "minimal", percentFromRange := JsVal.num 0 }
    else
      { status := "normal", severity := "none", percentFromRange := JsVal.num 0 }

/-- Substring test on character lists: does `pat` occur contiguously in the
second argument? -/
def containsSub (pat : List Char) : List Char → Bool
  | [] => pat.isEmpty
  | c :: rest => pat.isPrefixOf (c :: rest) || containsSub pat rest

/-- JS `String.prototype.includes`: substring containment. -/
def jsIncludes (s pat : String) : Bool := containsSub pat.toList s.toList

/-- ASCII trim of a character list (both ends), the effect of JS
`String.prototype.trim` on the names appearing here. -/
def trimChars (l : List Char) : List Char :=
  (((l.dropWhile Char.isWhitespace).reverse).dropWhile Char.isWhitespace).reverse

/-- JS `name.toLowerCase().trim()` for ASCII names: lower-case every
character, then trim surrounding whitespace. -/
def jsLowerTrim (s : String) : String :=
  String.mk (trimChars (s.toList.map Char.toLower))

/-- Metadata stored for each synonym in the standardization table. -/
structure BiomarkerMeta where
  code : String
  standardUnit : String
  category : String
deriving DecidableEq, Repr

/-- Translation of the `biomarkerStandardization` table from
`src/backend/src/utils/normalizer.js` lines 9-82, in source (insertion)
order, which is the iteration order of `Object.entries` for these keys. -/
def biomarkerStandardization : List (String × BiomarkerMeta) := [
  ("hemoglobin", ⟨"718-7", "g/dL", "CBC"⟩),
  ("hgb", ⟨"718-7", "g/dL", "CBC"⟩),
  ("hb", ⟨"718-7", "g/dL", "CBC"⟩),
  ("wbc", ⟨"6690-2", "10^3/µL", "CBC"⟩),
  ("white blood cell count", ⟨"6690-2", "10^3/µL", "CBC"⟩),
  ("rbc", ⟨"789-8", "10^6/µL", "CBC"⟩),
  ("red blood cell count", ⟨"789-8", "10^6/µL", "CBC"⟩),
  ("platelets", ⟨"777-3", "10^3/µL", "CBC"⟩),
  ("plt", ⟨"777-3", "10^3/µL", "CBC"⟩),
  ("hematocrit", ⟨"4544-3", "%", "CBC"⟩),
  ("hct", ⟨"4544-3", "%", "CBC"⟩),
  ("mcv", ⟨"787-2", "fL", "CBC"⟩),
  ("mch", ⟨"785-6", "pg", "CBC"⟩),
  ("mchc", ⟨"786-4", "g/dL", "CBC"⟩),
  ("rdw", ⟨"788-0", "%", "CBC"⟩),
  ("neutrophils", ⟨"751-8", "%", "CBC"⟩),
  ("lymphocytes", ⟨"731-0", "%", "CBC"⟩),
  ("monocytes", ⟨"742-7", "%", "CBC"⟩),
  ("eosinophils", ⟨"711-2", "%", "CBC"⟩),
  ("basophils", ⟨"704-7", "%", "CBC"⟩),
  ("glucose", ⟨"2345-7", "mg/dL", "CMP"⟩),
  ("bun", ⟨"3094-0", "mg/dL", "CMP"⟩),
  ("blood urea nitrogen", ⟨"3094-0", "mg/dL", "CMP"⟩),
  ("creatinine", ⟨"2160-0", "mg/dL", "CMP"⟩),
  ("egfr", ⟨"33914-3", "mL/min/1.73m²", "CMP"⟩),
  ("sodium", ⟨"2951-2", "mmol/L", "CMP"⟩),
  ("na", ⟨"2951-2", "mmol/L", "CMP"⟩),
  ("potassium", ⟨"2823-3", "mmol/L", "CMP"⟩),
  ("k", ⟨"2823-3", "mmol/L", "CMP"⟩),
  ("chloride", ⟨"2075-0", "mmol/L", "CMP"⟩),
  ("cl", ⟨"2075-0", "mmol/L", "CMP"⟩),
  ("co2", ⟨"2028-9", "mmol/L", "CMP"⟩),
  ("calcium", ⟨"17861-6", "mg/dL", "CMP"⟩),
  ("ca", ⟨"17861-6", "mg/dL", "CMP"⟩),
  ("protein", ⟨"2885-2", "g/dL", "CMP"⟩),
  ("albumin", ⟨"1751-7", "g/dL", "CMP"⟩),
  ("globulin", ⟨"2336-6", "g/dL", "CMP"⟩),
  ("a/g ratio", ⟨"1759-0", "", "CMP"⟩),
  ("bilirubin", ⟨"1975-2", "mg/dL", "CMP"⟩),
  ("alt", ⟨"1742-6", "U/L", "CMP"⟩),
  ("ast", ⟨"1920-8", "U/L", "CMP"⟩),
  ("alp", ⟨"6768-6", "U/L", "CMP"⟩),
  ("cholesterol", ⟨"2093-3", "mg/dL", "Lipid"⟩),
  ("triglycerides", ⟨"2571-8", "mg/dL", "Lipid"⟩),
  ("hdl", ⟨"2085-9", "mg/dL", "Lipid"⟩),
  ("ldl", ⟨"13457-7", "mg/dL", "Lipid"⟩),
  ("vldl", ⟨"2091-7", "mg/dL", "Lipid"⟩),
  ("tsh", ⟨"3016-3", "mIU/L", "Thyroid"⟩),
  ("t3", ⟨"3053-6", "ng/dL", "Thyroid"⟩),
  ("t4", ⟨"3026-2", "µg/dL", "Thyroid"⟩),
  ("free t3", ⟨"30123-3", "pg/mL", "Thyroid"⟩),
  ("free t4", ⟨"3024-7", "ng/dL", "Thyroid"⟩),
  ("urine glucose", ⟨"5792-7", "mg/dL", "Urinalysis"⟩),
  ("urine protein", ⟨"5804-0", "mg/dL", "Urinalysis"⟩),
  ("urine ph", ⟨"5803-2", "", "Urinalysis"⟩),
  ("urine specific gravity", ⟨"5811-5", "", "Urinalysis"⟩),
  ("urine ketones", ⟨"5797-6", "mg/dL", "Urinalysis"⟩),
  ("ngal", ⟨"62238-1", "ng/mL", "Novel Kidney"⟩),
  ("kim-1", ⟨"82642-1", "ng/mL", "Novel Kidney"⟩),
  ("timp-2", ⟨"89579-9", "ng/mL", "Novel Kidney"⟩),
  ("igfbp7", ⟨"89580-7", "ng/mL", "Novel Kidney"⟩)]

/-- Result of `standardizeBiomarker`: the matched synonym plus its metadata. -/
structure StandardInfo where
  standardName : String
  code : String
  standardUnit : String
  category : String
deriving DecidableEq, Repr

/-- Translation of `standardizeBiomarker(name)` from `normalizer.js`
lines 118-143: lower-case and trim, direct table lookup, then fuzzy
first-match by substring containment over the table in insertion order;
`none` models the JS `null` for no match (and the falsy-name early return). -/
def standardizeBiomarker (name : String) : Option StandardInfo :=
  if name = "" then none
  else
    let normalizedName := jsLowerTrim name
    match biomarkerStandardization.lookup normalizedName with
    | some v => some ⟨normalizedName, v.code, v.standardUnit, v.category⟩
    | none =>
      match biomarkerStandardization.find?
          (fun kv => jsIncludes normalizedName kv.1) with
      | some kv => some ⟨kv.1, kv.2.code, kv.2.standardUnit, kv.2.category⟩
      | none => none

/-- Translation of the `unitConversions` table from `normalizer.js`
lines 85-111 (each entry is the JS conversion closure). -/
def unitConversions : List (String × (ℚ → ℚ)) := [
  ("g/dL_to_g/L", fun value => value * 10),
  ("g/L_to_g/dL", fun value => value / 10),
  ("mmol/L_to_g/dL", fun value => value * 1.611),
  ("g/dL_to_mmol/L", fun value => value / 1.611),
  ("mg/dL_to_mmol/L", fun value => value * 0.0555),
  ("mmol/L_to_mg/dL", fun value => value * 18.0182),
  ("mg/dL_to_µmol/L", fun value => value * 88.4),
  ("µmol/L_to_mg/dL", fun value => value / 88.4),
  ("mg/dL_to_mmol/L_chol", fun value => value * 0.0259),
  ("mmol/L_to_mg/dL_chol", fun value => value * 38.67),
  ("mg/dL_to_mmol/L_trig", fun value => value * 0.0113),
  ("mmol/L_to_mg/dL_trig", fun value => value * 88.5),
  ("F_to_C", fun value => (value - 32) * 5/9),
  ("C_to_F", fun value => (value * 9/5) + 32)]

/-- Translation of `convertUnit(value, fromUnit, toUnit)` from
`normalizer.js` lines 152-167. The reverse-path expression
`1 / reverse(1 / value)` uses rational division, which agrees with JS float
division except at `value = 0`, where JS would produce an infinity; no
theorem below exercises that point. -/
def convertUnit (value : ℚ) (fromUnit toUnit : String) : ℚ :=
  if fromUnit = toUnit then value
  else
    match unitConversions.lookup (fromUnit ++ "_to_" ++ toUnit) with
    | some f => f value
    | none =>
      match unitConversions.lookup (toUnit ++ "_to_" ++ fromUnit) with
      | some g => 1 / g (1 / value)
      | none => value

/-- Demographic attributes consulted by `adjustReferenceRange`. -/
structure Demographics where
  age : Option ℚ
  sex : Option String
deriving DecidableEq, Repr

/-- Translation of `adjustReferenceRange(biomarkerCode, defaultRange,
demographics)` from `normalizer.js` lines 214-234. -/
def adjustReferenceRange (biomarkerCode : String) (defaultRange : NumArg × NumArg)
    (demographics : Demographics) : NumArg × NumArg :=
  if biomarkerCode = "718-7" then
    if demographics.sex = some "female" then (.num 12.0, .num 15.5)
    else if demographics.sex = some "male" then (.num 13.5, .num 17.5)
    else defaultRange
  else if biomarkerCode = "2160-0" then
    if demographics.sex = some "female" then (.num 0.5, .num 1.1)
    else if demographics.sex = some "male" then (.num 0.7, .num 1.3)
    else defaultRange
  else defaultRange

/-- Translation of the `defaultRanges` table inside
`getDefaultReferenceRange` (`normalizer.js` lines 305-338). -/
def defaultRanges : List (String × (ℚ × ℚ)) := [
  ("718-7", (12.0, 16.0)),
  ("6690-2", (4.5, 11.0)),
  ("789-8", (4.2, 5.8)),
  ("777-3", (150, 450)),
  ("4544-3", (36, 48)),
  ("2345-7", (70, 99)),
  ("3094-0", (7, 20)),
  ("2160-0", (0.6, 1.2)),
  ("2951-2", (135, 145)),
  ("2823-3", (3.5, 5.0)),
  ("2093-3", (0, 200)),
  ("2571-8", (0, 150)),
  ("2085-9", (40, 60)),
  ("13457-7", (0, 100)),
  ("3016-3", (0.4, 4.0)),
  ("3053-6", (80, 200)),
  ("3026-2", (5.0, 12.0)),
  ("30123-3", (2.3, 4.2)),
  ("3024-7", (0.8, 1.8))]

/-- Translation of `getDefaultReferenceRange(biomarkerCode)`
(`normalizer.js` lines 305-338): a missing code yields
`{ min: null, max: null }`. -/
def getDefaultReferenceRange (biomarkerCode : String) : NumArg × NumArg :=
  match defaultRanges.lookup biomarkerCode with
  | some r => (.num r.1, .num r.2)
  | none => (.null, .null)

/-- A raw measurement as consumed by `normalizeBiomarker` (the
`collectedAt` field is not read by the normalizer and is omitted). -/
structure BiomarkerData where
  name : String
  value : ℚ
  unit : String
  referenceMin : NumArg
  referenceMax : NumArg
deriving DecidableEq, Repr

/-- The successfully standardized output record of `normalizeBiomarker`
(the JS object with `standardized: true`). -/
structure NormalizedBiomarker where
  code : String
  name : String
  originalName : String
  value : ℚ
  originalValue : ℚ
  unit : String
  originalUnit : String
  category : String
  referenceMin : NumArg
  referenceMax : NumArg
  status : String
  severity : String
  percentFromRange : JsVal
deriving DecidableEq, Repr

/-- Result of `normalizeBiomarker`: the `unknown` constructor models the
early return `{ ...biomarkerData, standardized: false, message }`, which
carries the original record (and in particular no `status`, `severity` or
`percentFromRange` fields at all); `ok` models the standardized record. -/
inductive NormalizeResult where
  | unknown (original : BiomarkerData) (message : String)
  | ok (biomarker : NormalizedBiomarker)
deriving DecidableEq, Repr

/-- Translation of `normalizeBiomarker(biomarkerData, demographics)` from
`normalizer.js` lines 242-298. Note the JS range test
`if (!referenceMin || !referenceMax)`: a supplied bound of `0` is falsy and
triggers the default-range path exactly like an absent bound. -/
def normalizeBiomarker (biomarkerData : BiomarkerData)
    (demographics : Demographics) : NormalizeResult :=
  match standardizeBiomarker biomarkerData.name with
  | none => .unknown biomarkerData "Unknown biomarker"
  | some standardBiomarker =>
    let standardValue :=
      if biomarkerData.unit ≠ standardBiomarker.standardUnit then
        convertUnit biomarkerData.value biomarkerData.unit standardBiomarker.standardUnit
      else biomarkerData.value
    let refRange : NumArg × NumArg :=
      if biomarkerData.referenceMin.isFalsy || biomarkerData.referenceMax.isFalsy then
        adjustReferenceRange standardBiomarker.code
          (getDefaultReferenceRange standardBiomarker.code) demographics
      else (biomarkerData.referenceMin, biomarkerData.referenceMax)
    let abnormalStatus := determineAbnormalStatus standardValue refRange.1 refRange.2
    .ok { code := standardBiomarker.code
          name := standardBiomarker.standardName
          originalName := biomarkerData.name
          value := standardValue
          originalValue := biomarkerData.value
          unit := standardBiomarker.standardUnit
          originalUnit := biomarkerData.unit
          category := standardBiomarker.category
          referenceMin := refRange.1
          referenceMax := refRange.2
          status := abnormalStatus.status
          severity := abnormalStatus.severity
          percentFromRange := abnormalStatus.percentFromRange }

/-- The part of an interpreted biomarker read by
`identifyBiomarkerPatterns`: its display name and status string. -/
structure PatternBiomarker where
  name : String
  status : String
deriving DecidableEq, Repr

/-- A detected pattern (`biomarkerInterpretation.js`). -/
structure Pattern where
  name : String
  description : String
  confidence : String
  biomarkers : List String
  recommendation : String
deriving DecidableEq, Repr

/-- The lookup map `biomarkerMap[b.name.toLowerCase()] = b` built at the top
of `identifyBiomarkerPatterns` (lines 192-195): for duplicate names the
later list entry overwrites the earlier one. -/
def biomarkerMapLookup (biomarkers : List PatternBiomarker) (key : String) :
    Option PatternBiomarker :=
  biomarkers.foldl (fun acc b =>
    if String.mk (b.name.toList.map Char.toLower) = key then some b else acc) none

/-- Translation of the anemia block of `identifyBiomarkerPatterns`
(`biomarkerInterpretation.js` lines 197-225). -/
def anemiaPatterns (biomarkers : List PatternBiomarker) : List Pattern :=
  match biomarkerMapLookup biomarkers "hemoglobin" with
  | none => []
  | some hemoglobin =>
    if jsIncludes hemoglobin.status "below" then
      let p0 : Pattern :=
        { name := "Potential Anemia Pattern"
          description := "Your results show low hemoglobin, which may indicate anemia."
          confidence := "medium"
          biomarkers := ["hemoglobin"]
          recommendation := "Consider discussing these results with your healthcare provider." }
      let p1 :=
        match biomarkerMapLookup biomarkers "hematocrit" with
        | some hematocrit =>
          if jsIncludes hematocrit.status "below" then
            { p0 with
              biomarkers := p0.biomarkers ++ ["hematocrit"]
              confidence := "high"
              description := "Your results show low hemoglobin and hematocrit, which may indicate anemia." }
          else p0
        | none => p0
      let p2 :=
        match biomarkerMapLookup biomarkers "mcv" with
        | some mcv =>
          if jsIncludes mcv.status "below" then
            { p1 with
              biomarkers := p1.biomarkers ++ ["mcv"]
              description := p1.description ++
                " The low MCV suggests this may be microcytic anemia, often associated with iron deficiency." }
          else if jsIncludes mcv.status "above" then
            { p1 with
              biomarkers := p1.biomarkers ++ ["mcv"]
              description := p1.description ++
                " The high MCV suggests this may be macrocytic anemia, which can be associated with vitamin B12 or folate deficiency." }
          else p1
        | none => p1
      [p2]
    else []

/-- The `metabolicRiskFactors` check table
(`biomarkerInterpretation.js` lines 228-233). -/
def metabolicRiskFactors : List (String × (PatternBiomarker → Bool)) := [
  ("glucose", fun b => jsIncludes b.status "above"),
  ("triglycerides", fun b => jsIncludes b.status "above"),
  ("hdl", fun b => jsIncludes b.status "below"),
  ("ldl", fun b => jsIncludes b.status "above")]

/-- The `presentMetabolicFactors` accumulator of the metabolic block
(lines 235-243): names of the factors whose biomarker is present in the map
and whose check passes, in table order. -/
def presentMetabolicFactors (biomarkers : List PatternBiomarker) : List String :=
  (metabolicRiskFactors.filter (fun kv =>
    match biomarkerMapLookup biomarkers kv.1 with
    | some b => kv.2 b
    | none => false)).map Prod.fst

/-- The `metabolicRiskCount` counter of the metabolic block. -/
def metabolicRiskCount (biomarkers : List PatternBiomarker) : ℕ :=
  (presentMetabolicFactors biomarkers).length

/-- Translation of the metabolic-risk block of `identifyBiomarkerPatterns`
(lines 227-253). -/
def metabolicPatterns (biomarkers : List PatternBiomarker) : List Pattern :=
  if 2 ≤ metabolicRiskCount biomarkers then
    [{ name := "Potential Metabolic Risk Pattern"
       description := "Your results show " ++ toString (metabolicRiskCount biomarkers) ++
         " factors that may be associated with metabolic risk: " ++
         String.intercalate ", " (presentMetabolicFactors biomarkers) ++ "."
       confidence := if 3 ≤ metabolicRiskCount biomarkers then "high" else "medium"
       biomarkers := presentMetabolicFactors biomarkers
       recommendation := "Consider discussing lifestyle factors such as diet and exercise with your healthcare provider." }]
  else []

/-- Translation of the thyroid block of `identifyBiomarkerPatterns`
(lines 255-290): the elevated-TSH and low-TSH branches are an
`if / else if`, so at most one fires. -/
def thyroidPatterns (biomarkers : List PatternBiomarker) : List Pattern :=
  match biomarkerMapLookup biomarkers "tsh" with
  | none => []
  | some tsh =>
    if jsIncludes tsh.status "above" then
      let p0 : Pattern :=
        { name := "Elevated TSH Pattern"
          description := "Your results show elevated TSH, which may indicate the thyroid is being stimulated to produce more hormone."
          confidence := "medium"
          biomarkers := ["tsh"]
          recommendation := "Consider discussing these results with your healthcare provider." }
      let p1 :=
        match biomarkerMapLookup biomarkers "free t4" with
        | some freeT4 =>
          if jsIncludes freeT4.status "below" then
            { p0 with
              biomarkers := p0.biomarkers ++ ["free t4"]
              confidence := "high"
              description := "Your results show elevated TSH with low Free T4, which may be consistent with hypothyroidism." }
          else p0
        | none => p0
      [p1]
    else if jsIncludes tsh.status "below" then
      let p0 : Pattern :=
        { name := "Low TSH Pattern"
          description := "Your results show low TSH, which may indicate reduced thyroid stimulation."
          confidence := "medium"
          biomarkers := ["tsh"]
          recommendation := "Consider discussing these results with your healthcare provider." }
      let p1 :=
        match biomarkerMapLookup biomarkers "free t4" with
        | some freeT4 =>
          if jsIncludes freeT4.status "above" then
            { p0 with
              biomarkers := p0.biomarkers ++ ["free t4"]
              confidence := "high"
              description := "Your results show low TSH with high Free T4, which may be consistent with hyperthyroidism." }
          else p0
        | none => p0
      [p1]
    else []

/-- Translation of the kidney block of `identifyBiomarkerPatterns`
(lines 292-315). -/
def kidneyPatterns (biomarkers : List PatternBiomarker) : List Pattern :=
  match biomarkerMapLookup biomarkers "creatinine" with
  | none => []
  | some creatinine =>
    if jsIncludes creatinine.status "above" then
      let p0 : Pattern :=
        { name := "Elevated Creatinine Pattern"
          description := "Your results show elevated creatinine, which may indicate reduced kidney function."
          confidence := "medium"
          biomarkers := ["creatinine"]
          recommendation := "Consider discussing these results with your healthcare provider." }
      let p1 :=
        match biomarkerMapLookup biomarkers "bun" with
        | some bun =>
          if jsIncludes bun.status "above" then
            { p0 with
              biomarkers := p0.biomarkers ++ ["bun"]
              confidence := "high"
              description := "Your results show elevated creatinine and BUN, which may indicate reduced kidney function." }
          else p0
        | none => p0
      let p2 :=
        match biomarkerMapLookup biomarkers "egfr" with
        | some egfr =>
          if jsIncludes egfr.status "below" then
            { p1 with
              biomarkers := p1.biomarkers ++ ["egfr"]
              confidence := "high"
              description := "Your results show reduced eGFR with elevated creatinine, which may indicate reduced kidney function." }
          else p1
        | none => p1
      [p2]
    else []

/-- Translation of `identifyBiomarkerPatterns(biomarkers)` from
`src/backend/src/services/biomarkerInterpretation.js` lines 188-318: the
four rule blocks push onto `patterns` in source order. -/
def identifyBiomarkerPatterns (biomarkers : List PatternBiomarker) : List Pattern :=
  anemiaPatterns biomarkers ++ metabolicPatterns biomarkers ++
    thyroidPatterns biomarkers ++ kidneyPatterns biomarkers

/-- Translation of `calculatePearsonCorrelation(x, y)` from
`src/backend/src/services/biomarkerInterpretation.js` lines 749-779 (the
correlation-analysis service). The standard deviations need a real square
root, so the result lives in `ℝ`; the `stdX === 0 || stdY === 0` guard and
the early `return 0` are kept exactly. The function is only invoked on
equal-length paired lists, which the theorems below assume. -/
noncomputable def calculatePearsonCorrelation (x y : List ℚ) : ℝ :=
  let n := x.length
  let meanX : ℚ := x.sum / n
  let meanY : ℚ := y.sum / n
  let covariance : ℚ :=
    ((List.range n).map (fun i => (x.getD i 0 - meanX) * (y.getD i 0 - meanY))).sum
  let varX : ℚ := ((List.range n).map (fun i => (x.getD i 0 - meanX) * (x.getD i 0 - meanX))).sum
  let varY : ℚ := ((List.range n).map (fun i => (y.getD i 0 - meanY) * (y.getD i 0 - meanY))).sum
  let stdX : ℝ := Real.sqrt varX
  let stdY : ℝ := Real.sqrt varY
  if stdX = 0 ∨ stdY = 0 then 0
  else (covariance : ℝ) / (stdX * stdY)

/-- Translation of `interpretCorrelation(coefficient)` (lines 786-798). -/
noncomputable def interpretCorrelation (coefficient : ℝ) : String :=
  let absCoeff := |coefficient|
  if 0.8 ≤ absCoeff then
    if 0 < coefficient then "strong positive" else "strong negative"
  else if 0.5 ≤ absCoeff then
    if 0 < coefficient then "moderate positive" else "moderate negative"
  else if 0.3 ≤ absCoeff then
    if 0 < coefficient then "weak positive" else "weak negative"
  else "no significant"

/-- JS `parseFloat(v.toFixed(2))` on a finite real: round to two decimal
places, ties toward the larger value. -/
noncomputable def jsToFixed2R (v : ℝ) : ℝ := (⌊v * 100 + 1/2⌋ : ℝ) / 100

/-- First-occurrence deduplication, the key iteration order of a JS `Map`. -/
def uniqueDatesAux (seen : List ℕ) : List ℕ → List ℕ
  | [] => []
  | d :: rest =>
    if d ∈ seen then uniqueDatesAux seen rest
    else d :: uniqueDatesAux (d :: seen) rest

/-- Distinct dates of a series in first-occurrence order (the iteration
order of `dateMap1` in `pairBiomarkerData`). -/
def uniqueDates (dates : List ℕ) : List ℕ := uniqueDatesAux [] dates

/-- Last value stored for a date: models `Map.set` overwriting on duplicate
keys followed by `Map.get`. -/
def lastValueAt (points : List (ℕ × ℚ)) (date : ℕ) : Option ℚ :=
  points.foldl (fun acc p => if p.1 = date then some p.2 else acc) none

/-- Translation of `pairBiomarkerData(data1, data2)` (lines 707-741): a
calendar date is modelled as a natural-number key (the
`toISOString().split('T')[0]` day string); points of the two series are
paired exactly when their day keys are equal, each map keeping the last
value per day, and the paired list is sorted by date. -/
def pairBiomarkerData (data1 data2 : List (ℕ × ℚ)) : List (ℕ × ℚ × ℚ) :=
  let paired := (uniqueDates (data1.map Prod.fst)).filterMap (fun date =>
    match lastValueAt data1 date, lastValueAt data2 date with
    | some v1, some v2 => some (date, v1, v2)
    | _, _ => none)
  paired.insertionSort (fun a b => a.1 ≤ b.1)

/-- A correlation edge as produced by `calculateCorrelations`. -/
structure CorrelationEdge where
  biomarker1 : String
  biomarker2 : String
  coefficient : ℝ
  dataPoints : ℕ
  relationship : String
  pairedData : List (ℕ × ℚ × ℚ)

/-- Index pairs `(i, j)` with `i < j < n`, in the iteration order of the
nested loops of `calculateCorrelations`. -/
def pairsUnder (n : ℕ) : List (ℕ × ℕ) :=
  (List.range n).flatMap (fun i =>
    ((List.range n).filter (fun j => i < j)).map (fun j => (i, j)))

/-- The correlation record pushed by `calculateCorrelations` for the pair
of series at positions `i < j` (the raw coefficient feeds
`interpretCorrelation`; the stored `coefficient` is
`parseFloat(coefficient.toFixed(2))`). -/
noncomputable def mkCorrelationEdge
    (biomarkerData : List (String × List (ℕ × ℚ))) (i j : ℕ) : CorrelationEdge :=
  let entry1 := biomarkerData.getD i ("", [])
  let entry2 := biomarkerData.getD j ("", [])
  let pairedData := pairBiomarkerData entry1.2 entry2.2
  let coefficient := calculatePearsonCorrelation
    (pairedData.map (fun p => p.2.1)) (pairedData.map (fun p => p.2.2))
  { biomarker1 := entry1.1
    biomarker2 := entry2.1
    coefficient := jsToFixed2R coefficient
    dataPoints := pairedData.length
    relationship := interpretCorrelation coefficient
    pairedData := pairedData }

/-- Translation of `calculateCorrelations(biomarkerData)` (lines 663-699).
The JS object `biomarkerData` is modelled as an association list with
distinct names (JS object keys are unique), so `biomarkerData[name_i]` is
the series at position `i`. A pair is pushed exactly when
`pairedData.length >= 3`. -/
noncomputable def calculateCorrelations
    (biomarkerData : List (String × List (ℕ × ℚ))) : List CorrelationEdge :=
  (pairsUnder biomarkerData.length).flatMap (fun ij =>
    if 3 ≤ (pairBiomarkerData (biomarkerData.getD ij.1 ("", [])).2
        (biomarkerData.getD ij.2 ("", [])).2).length then
      [mkCorrelationEdge biomarkerData ij.1 ij.2]
    else [])

/-- Minimum of a list of rationals (`Math.min(...x)`); only evaluated on
nonempty lists by `calculateTrend`, whose callers require at least two
points. -/
def listMin : List ℚ → ℚ
  | [] => 0
  | h :: t => t.foldl min h

/-- The date-sorted points of a series
(`dataPoints.sort((a, b) => a.date - b.date)`); dates are `getTime()`
millisecond timestamps modelled as rationals. -/
def sortedByDate (dataPoints : List (ℚ × ℚ)) : List (ℚ × ℚ) :=
  dataPoints.insertionSort (fun a b => a.1 ≤ b.1)

/-- The normalized x-values of `calculateTrend` (lines 811-816): sorted
timestamps shifted to start at zero, converted to days. -/
def normalizedDays (dataPoints : List (ℚ × ℚ)) : List ℚ :=
  let x := (sortedByDate dataPoints).map Prod.fst
  x.map (fun val => (val - listMin x) / (1000 * 60 * 60 * 24))

/-- Denominator of the closed-form least-squares slope. -/
def olsDenom (x : List ℚ) : ℚ :=
  (x.length : ℚ) * (x.map (fun v => v * v)).sum - x.sum * x.sum

/-- Modelled from the spec: the repository calls `linearRegression` from
the external `ml-regression` package, whose source is not part of this
repository. The spec describes it as an ordinary least squares fit with
closed-form slope/intercept from the sums of x, y, xy and x²; that closed
form is embedded here with JS division semantics (an all-equal x-list makes
the slope `NaN`). -/
def linearRegression (x y : List ℚ) : JsVal × JsVal :=
  let n : ℚ := x.length
  let sumX := x.sum
  let sumY := y.sum
  let sumXY := ((x.zip y).map (fun p => p.1 * p.2)).sum
  let slope := JsVal.div (JsVal.num (n * sumXY - sumX * sumY)) (JsVal.num (olsDenom x))
  let intercept := JsVal.div
    (JsVal.sub (JsVal.num sumY) (JsVal.mul slope (JsVal.num sumX))) (JsVal.num n)
  (slope, intercept)

/-- JS `parseFloat(v.toFixed(2))` on a possibly non-finite value. -/
def jsToFixed2 : JsVal → JsVal
  | JsVal.num q => JsVal.num ((jsRound (q * 100) : ℚ) / 100)
  | JsVal.nan => JsVal.nan
  | JsVal.pinf => JsVal.pinf
  | JsVal.ninf => JsVal.ninf

/-- Rounding of a finite rational to two decimals
(`parseFloat(q.toFixed(2))`). -/
def toFixed2Q (q : ℚ) : ℚ := (jsRound (q * 100) : ℚ) / 100

/-- The trend record produced by `calculateTrend` (the fields carried
unchanged from the first data point — unit and reference range — are
omitted). -/
structure TrendResult where
  biomarkerName : String
  dataPoints : ℕ
  durationDays : ℚ
  slope : JsVal
  intercept : JsVal
  rSquared : JsVal
  percentChange : ℚ
  direction : String
  significance : String

/-- The `y` array of `calculateTrend`: values of the date-sorted points. -/
def trendYs (dataPoints : List (ℚ × ℚ)) : List ℚ :=
  (sortedByDate dataPoints).map Prod.snd

/-- The `(slope, intercept)` pair computed by `calculateTrend` via
`linearRegression(normalizedX, y)`. -/
def trendRegression (dataPoints : List (ℚ × ℚ)) : JsVal × JsVal :=
  linearRegression (normalizedDays dataPoints) (trendYs dataPoints)

/-- The `predictedValues` array of `calculateTrend`:
`slope * x + intercept` at each normalized x. -/
def predictedValues (dataPoints : List (ℚ × ℚ)) : List JsVal :=
  (normalizedDays dataPoints).map (fun xv =>
    JsVal.add (JsVal.mul (trendRegression dataPoints).1 (JsVal.num xv))
      (trendRegression dataPoints).2)

/-- The `residuals` array of `calculateTrend`: actual minus predicted. -/
def residuals (dataPoints : List (ℚ × ℚ)) : List JsVal :=
  ((trendYs dataPoints).zip (predictedValues dataPoints)).map (fun p =>
    JsVal.sub (JsVal.num p.1) p.2)

/-- `residualSumSquares` of `calculateTrend`
(`residuals.reduce((sum, val) => sum + Math.pow(val, 2), 0)`). -/
def residualSumSquares (dataPoints : List (ℚ × ℚ)) : JsVal :=
  (residuals dataPoints).foldl
    (fun sum val => JsVal.add sum (JsVal.mul val val)) (JsVal.num 0)

/-- `totalSumSquares` of `calculateTrend`: the centered sum of squares of
the y-values. -/
def totalSumSquares (dataPoints : List (ℚ × ℚ)) : ℚ :=
  let y := trendYs dataPoints
  let meanY : ℚ := y.sum / y.length
  (y.map (fun val => (val - meanY) * (val - meanY))).sum

/-- The raw `rSquared = 1 - SSres/SStot` of `calculateTrend` — computed
without any guard for `SStot == 0`. -/
def trendRSquared (dataPoints : List (ℚ × ℚ)) : JsVal :=
  JsVal.sub (JsVal.num 1)
    (JsVal.div (residualSumSquares dataPoints) (JsVal.num (totalSumSquares dataPoints)))

/-- Translation of `calculateTrend(biomarkerName, dataPoints)` from
`biomarkerInterpretation.js` lines 806-864. A data point is a
`(timestamp, value)` pair with the timestamp in milliseconds. -/
def calculateTrend (biomarkerName : String) (dataPoints : List (ℚ × ℚ)) :
    TrendResult :=
  let pts := sortedByDate dataPoints
  let x := pts.map Prod.fst
  let y := trendYs dataPoints
  let slope := (trendRegression dataPoints).1
  let intercept := (trendRegression dataPoints).2
  let firstValue := y.headD 0
  let lastValue := y.getLastD 0
  let percentChange : ℚ :=
    if firstValue ≠ 0 then ((lastValue - firstValue) / |firstValue|) * 100 else 0
  { biomarkerName := biomarkerName
    dataPoints := pts.length
    durationDays := (x.getLastD 0 - x.headD 0) / (1000 * 60 * 60 * 24)
    slope := slope
    intercept := intercept
    rSquared := jsToFixed2 (trendRSquared dataPoints)
    percentChange := toFixed2Q percentChange
    direction :=
      if slope.gtQ 0 then "increasing"
      else if slope.ltQ 0 then "decreasing"
      else "stable"
    significance :=
      if (slope.abs).geQ (1/10) then "significant" else "not significant" }

/-- The `standardValue` computed by `normalizeBiomarker`: the measurement
converted to the standard unit when the supplied unit differs. -/
def standardValueOf (biomarkerData : BiomarkerData) (std : StandardInfo) : ℚ :=
  if biomarkerData.unit ≠ std.standardUnit then
    convertUnit biomarkerData.value biomarkerData.unit std.standardUnit
  else biomarkerData.value

/-! ## Theorems -/

/-- C1: the spec (and the repository's own test expecting `unknown` for a
missing reference range) says an unresolvable range yields
`{unknown, none, 0}`; the code instead classifies absent bounds as
`normal` (both NaN comparisons are false), and an unmapped name returns
the raw record with no status field at all. -/
theorem C1_missing_range_not_unknown :
    determineAbnormalStatus 42 .undef .undef =
      { status := "normal", severity := "none", percentFromRange := JsVal.num 0 } ∧
    normalizeBiomarker ⟨"ZZZ", 5, "units", .undef, .undef⟩ ⟨none, none⟩ =
      .unknown ⟨"ZZZ", 5, "units", .undef, .undef⟩ "Unknown biomarker" := by
  constructor
  · norm_num [determineAbnormalStatus, NumArg.ltArg, NumArg.gtArg, NumArg.toJs,
      JsVal.sub, JsVal.div, JsVal.ltQ, JsVal.gtQ]
  · have h0 : standardizeBiomarker "ZZZ" = none := by decide
    simp [normalizeBiomarker, h0]

/-- C3: a caller-supplied `referenceMin > referenceMax` is not rejected;
`determineAbnormalStatus(150, 200, 100)` silently produces a classified
`below_range` result (the repository does contain a
`validateReferenceRanges` middleware that would reject it, but no route
applies it and the classifier itself never fails). -/
theorem C3_inverted_range_is_silently_classified :
    determineAbnormalStatus 150 (.num 200) (.num 100) =
      { status := "below_range", severity := "low", percentFromRange := JsVal.num (-25) } := by
  norm_num [determineAbnormalStatus, NumArg.ltArg, NumArg.gtArg, NumArg.toJs,
    JsVal.sub, JsVal.div, JsVal.ltQ, JsVal.gtQ, JsVal.mul, JsVal.round, JsVal.neg, jsRound]

/-- C2 counterexample: the claim says `percentFromRange` for a below-range
value equals the non-negative `round((1 - value/min) * 100)`, but the code
negates it: at `classify(11, 13.5, 17.5)` the claimed value is `19` while
the code stores `-19`. -/
theorem C2_counterexample_percent_negated :
    (determineAbnormalStatus 11 (.num (27/2)) (.num (35/2))).percentFromRange ≠
      JsVal.num (jsRound ((1 - 11 / (27/2)) * 100)) := by
  norm_num [determineAbnormalStatus, NumArg.ltArg, NumArg.gtArg, NumArg.toJs,
    JsVal.sub, JsVal.div, JsVal.ltQ, JsVal.gtQ, JsVal.mul, JsVal.round, JsVal.neg, jsRound]

/-- C2 (amended): for `min > 0` and `value < min` the classifier returns
status `below_range`, severity `high` iff `(min - value)/min > 1/2` else
`low`, and `percentFromRange` equal to the NEGATION
`-round((1 - value/min) * 100)` (a non-positive signed deviation). -/
theorem C2_below_range_classification (value minv maxv : ℚ)
    (hmin : 0 < minv) (hv : value < minv) :
    determineAbnormalStatus value (.num minv) (.num maxv) =
      { status := "below_range"
        severity := if 1/2 < (minv - value) / minv then "high" else "low"
        percentFromRange := JsVal.num (-(jsRound ((1 - value / minv) * 100))) } := by
  have h1 : NumArg.ltArg value (.num minv) = true := by
    simp [NumArg.ltArg, hv]
  by_cases h : 1/2 < (minv - value) / minv <;>
    simp [determineAbnormalStatus, h1, NumArg.toJs, JsVal.sub, JsVal.div,
      JsVal.mul, JsVal.round, JsVal.neg, JsVal.gtQ, hmin.ne', h]

/-- C2 witness: the amended below-range classification at
`classify(11, 13.5, 17.5)`. -/
theorem C2_below_range_classification_witness :
    (0 : ℚ) < 27/2 ∧ (11 : ℚ) < 27/2 ∧
    determineAbnormalStatus 11 (.num (27/2)) (.num (35/2)) =
      { status := "below_range"
        severity := if 1/2 < ((27/2 : ℚ) - 11) / (27/2) then "high" else "low"
        percentFromRange := JsVal.num (-(jsRound ((1 - 11 / (27/2 : ℚ)) * 100))) } :=
  ⟨by norm_num, by norm_num,
    C2_below_range_classification 11 (27/2) (35/2) (by norm_num) (by norm_num)⟩

/-- C6: the three concrete classifications from the spec, and the range
boundary: for any `min ≤ max`, `classify(min, min, max)` yields an in-range
status (`borderline_low`, or `normal` in the degenerate `min = max` case),
never `below_range`. -/
theorem C6_classify_examples_and_boundary :
    (determineAbnormalStatus 95 (.num 70) (.num 99)).status = "normal" ∧
    determineAbnormalStatus 240 (.num 125) (.num 200) =
      { status := "above_range", severity := "low", percentFromRange := JsVal.num 20 } ∧
    (determineAbnormalStatus 11 (.num (27/2)) (.num (35/2))).status = "below_range" ∧
    ∀ mn mx : ℚ, mn ≤ mx →
      (determineAbnormalStatus mn (.num mn) (.num mx)).status = "borderline_low" ∨
      (determineAbnormalStatus mn (.num mn) (.num mx)).status = "normal" := by
  refine ⟨?_, ?_, ?_, ?_⟩
  · norm_num [determineAbnormalStatus, NumArg.ltArg, NumArg.gtArg, NumArg.toJs,
      JsVal.sub, JsVal.div, JsVal.ltQ, JsVal.gtQ]
  · norm_num [determineAbnormalStatus, NumArg.ltArg, NumArg.gtArg, NumArg.toJs,
      JsVal.sub, JsVal.div, JsVal.ltQ, JsVal.gtQ, JsVal.mul, JsVal.round, jsRound]
  · norm_num [determineAbnormalStatus, NumArg.ltArg, NumArg.gtArg, NumArg.toJs,
      JsVal.sub, JsVal.div, JsVal.ltQ, JsVal.gtQ, JsVal.mul, JsVal.round, JsVal.neg, jsRound]
  · intro mn mx h
    rcases eq_or_lt_of_le h with heq | hlt
    · subst heq
      right
      simp [determineAbnormalStatus, NumArg.ltArg, NumArg.gtArg, NumArg.toJs,
        JsVal.sub, JsVal.div, JsVal.ltQ, JsVal.gtQ]
    · left
      have hne : mx - mn ≠ 0 := sub_ne_zero.mpr hlt.ne'
      simp [determineAbnormalStatus, NumArg.ltArg, NumArg.gtArg, NumArg.toJs,
        JsVal.sub, JsVal.div, JsVal.ltQ, JsVal.gtQ, hne, not_lt.mpr h]

/-- C6 witness: the boundary clause instantiated at `classify(70, 70, 99)`. -/
theorem C6_classify_examples_and_boundary_witness :
    (70 : ℚ) ≤ 99 ∧
    ((determineAbnormalStatus 70 (.num 70) (.num 99)).status = "borderline_low" ∨
      (determineAbnormalStatus 70 (.num 70) (.num 99)).status = "normal") :=
  ⟨by norm_num, C6_classify_examples_and_boundary.2.2.2 70 99 (by norm_num)⟩

/-- C5 counterexample: `normalizeBiomarker` for LDL 110 mg/dL with
caller-supplied bounds `referenceMin = 0`, `referenceMax = 130` does NOT
classify against the supplied bounds: `0` is falsy, so the default LDL
range (0, 100) replaces them and the value is reported `above_range`,
while classification against the supplied bounds would give `normal`. -/
theorem C5_counterexample_zero_min_ignored :
    normalizeBiomarker ⟨"ldl", 110, "mg/dL", .num 0, .num 130⟩ ⟨none, none⟩ =
      .ok { code := "13457-7", name := "ldl", originalName := "ldl"
            value := 110, originalValue := 110
            unit := "mg/dL", originalUnit := "mg/dL", category := "Lipid"
            referenceMin := .num 0, referenceMax := .num 100
            status := "above_range", severity := "low"
            percentFromRange := JsVal.num 10 } ∧
    (determineAbnormalStatus 110 (.num 0) (.num 130)).status = "normal" := by
  have hs : standardizeBiomarker "ldl" =
      some ⟨"ldl", "13457-7", "mg/dL", "Lipid"⟩ := by decide
  have hd : adjustReferenceRange "13457-7" (getDefaultReferenceRange "13457-7")
      ⟨none, none⟩ = (.num 0, .num 100) := by decide
  have hc : determineAbnormalStatus 110 (.num 0) (.num 100) =
      { status := "above_range", severity := "low", percentFromRange := JsVal.num 10 } := by
    norm_num [determineAbnormalStatus, NumArg.ltArg, NumArg.gtArg, NumArg.toJs,
      JsVal.sub, JsVal.div, JsVal.ltQ, JsVal.gtQ, JsVal.mul, JsVal.round, jsRound]
  constructor
  · simp [normalizeBiomarker, hs, hd, hc, NumArg.isFalsy]
  · norm_num [determineAbnormalStatus, NumArg.ltArg, NumArg.gtArg, NumArg.toJs,
      JsVal.sub, JsVal.div, JsVal.ltQ, JsVal.gtQ]

/-- C5 (amended): the caller-supplied bounds are used only when BOTH are
truthy (present, non-null and nonzero); then the value is classified
against exactly those bounds. When either bound is falsy — including a
supplied bound of `0` — the default-range table with demographic overrides
is consulted instead. -/
theorem C5_supplied_range_used_only_when_truthy
    (raw : BiomarkerData) (demo : Demographics) (std : StandardInfo)
    (hstd : standardizeBiomarker raw.name = some std) :
    (raw.referenceMin.isFalsy = false → raw.referenceMax.isFalsy = false →
      normalizeBiomarker raw demo = .ok
        { code := std.code, name := std.standardName, originalName := raw.name
          value := standardValueOf raw std, originalValue := raw.value
          unit := std.standardUnit, originalUnit := raw.unit
          category := std.category
          referenceMin := raw.referenceMin, referenceMax := raw.referenceMax
          status := (determineAbnormalStatus (standardValueOf raw std)
            raw.referenceMin raw.referenceMax).status
          severity := (determineAbnormalStatus (standardValueOf raw std)
            raw.referenceMin raw.referenceMax).severity
          percentFromRange := (determineAbnormalStatus (standardValueOf raw std)
            raw.referenceMin raw.referenceMax).percentFromRange }) ∧
    ((raw.referenceMin.isFalsy || raw.referenceMax.isFalsy) = true →
      normalizeBiomarker raw demo = .ok
        { code := std.code, name := std.standardName, originalName := raw.name
          value := standardValueOf raw std, originalValue := raw.value
          unit := std.standardUnit, originalUnit := raw.unit
          category := std.category
          referenceMin := (adjustReferenceRange std.code
            (getDefaultReferenceRange std.code) demo).1
          referenceMax := (adjustReferenceRange std.code
            (getDefaultReferenceRange std.code) demo).2
          status := (determineAbnormalStatus (standardValueOf raw std)
            (adjustReferenceRange std.code (getDefaultReferenceRange std.code) demo).1
            (adjustReferenceRange std.code (getDefaultReferenceRange std.code) demo).2).status
          severity := (determineAbnormalStatus (standardValueOf raw std)
            (adjustReferenceRange std.code (getDefaultReferenceRange std.code) demo).1
            (adjustReferenceRange std.code (getDefaultReferenceRange std.code) demo).2).severity
          percentFromRange := (determineAbnormalStatus (standardValueOf raw std)
            (adjustReferenceRange std.code (getDefaultReferenceRange std.code) demo).1
            (adjustReferenceRange std.code (getDefaultReferenceRange std.code) demo).2).percentFromRange }) := by
  constructor
  · intro hmin hmax
    simp [normalizeBiomarker, hstd, hmin, hmax, standardValueOf]
  · intro hfal
    simp [normalizeBiomarker, hstd, hfal, standardValueOf]

/-- C5 witness: the amended statement at an LDL measurement with truthy
supplied bounds (50, 130); the supplied bounds are used as given. -/
theorem C5_supplied_range_used_only_when_truthy_witness :
    standardizeBiomarker "ldl" = some ⟨"ldl", "13457-7", "mg/dL", "Lipid"⟩ ∧
    ((NumArg.num 50).isFalsy = false → (NumArg.num 130).isFalsy = false →
      normalizeBiomarker ⟨"ldl", 110, "mg/dL", .num 50, .num 130⟩ ⟨none, none⟩ = .ok
        { code := "13457-7", name := "ldl", originalName := "ldl"
          value := standardValueOf ⟨"ldl", 110, "mg/dL", .num 50, .num 130⟩
            ⟨"ldl", "13457-7", "mg/dL", "Lipid"⟩
          originalValue := 110
          unit := "mg/dL", originalUnit := "mg/dL", category := "Lipid"
          referenceMin := .num 50, referenceMax := .num 130
          status := (determineAbnormalStatus (standardValueOf
            ⟨"ldl", 110, "mg/dL", .num 50, .num 130⟩
            ⟨"ldl", "13457-7", "mg/dL", "Lipid"⟩) (.num 50) (.num 130)).status
          severity := (determineAbnormalStatus (standardValueOf
            ⟨"ldl", 110, "mg/dL", .num 50, .num 130⟩
            ⟨"ldl", "13457-7", "mg/dL", "Lipid"⟩) (.num 50) (.num 130)).severity
          percentFromRange := (determineAbnormalStatus (standardValueOf
            ⟨"ldl", 110, "mg/dL", .num 50, .num 130⟩
            ⟨"ldl", "13457-7", "mg/dL", "Lipid"⟩) (.num 50) (.num 130)).percentFromRange }) :=
  ⟨by decide,
    (C5_supplied_range_used_only_when_truthy ⟨"ldl", 110, "mg/dL", .num 50, .num 130⟩
      ⟨none, none⟩ ⟨"ldl", "13457-7", "mg/dL", "Lipid"⟩ (by decide)).1⟩

/-- The anemia block yields no pattern or exactly one, named
"Potential Anemia Pattern". -/
theorem anemiaPatterns_cases (bs : List PatternBiomarker) :
    anemiaPatterns bs = [] ∨
      ∃ p, anemiaPatterns bs = [p] ∧ p.name = "Potential Anemia Pattern" := by
  unfold anemiaPatterns
  rcases biomarkerMapLookup bs "hemoglobin" with _ | hgb
  · left; rfl
  · by_cases hb : jsIncludes hgb.status "below"
    · right
      simp only [hb, if_true]
      refine ⟨_, rfl, ?_⟩
      rcases biomarkerMapLookup bs "hematocrit" with _ | hct <;>
        rcases biomarkerMapLookup bs "mcv" with _ | mcv <;>
        (try (dsimp only)) <;> (try split_ifs) <;> rfl
    · left; simp [hb]

/-- The thyroid block yields no pattern or exactly one, named
"Elevated TSH Pattern" or "Low TSH Pattern". -/
theorem thyroidPatterns_cases (bs : List PatternBiomarker) :
    thyroidPatterns bs = [] ∨
      ∃ p, thyroidPatterns bs = [p] ∧
        (p.name = "Elevated TSH Pattern" ∨ p.name = "Low TSH Pattern") := by
  unfold thyroidPatterns
  rcases biomarkerMapLookup bs "tsh" with _ | tsh
  · left; rfl
  · by_cases ha : jsIncludes tsh.status "above"
    · right
      simp only [ha, if_true]
      refine ⟨_, rfl, Or.inl ?_⟩
      rcases biomarkerMapLookup bs "free t4" with _ | ft4 <;>
        (try (dsimp only)) <;> (try split_ifs) <;> rfl
    · by_cases hb : jsIncludes tsh.status "below"
      · right
        simp only [ha, hb, if_false, if_true]
        refine ⟨_, rfl, Or.inr ?_⟩
        rcases biomarkerMapLookup bs "free t4" with _ | ft4 <;>
          (try (dsimp only)) <;> (try split_ifs) <;> rfl
      · left; simp [ha, hb]

/-- The kidney block yields no pattern or exactly one, named
"Elevated Creatinine Pattern". -/
theorem kidneyPatterns_cases (bs : List PatternBiomarker) :
    kidneyPatterns bs = [] ∨
      ∃ p, kidneyPatterns bs = [p] ∧ p.name = "Elevated Creatinine Pattern" := by
  unfold kidneyPatterns
  rcases biomarkerMapLookup bs "creatinine" with _ | cre
  · left; rfl
  · by_cases hb : jsIncludes cre.status "above"
    · right
      simp only [hb, if_true]
      refine ⟨_, rfl, ?_⟩
      rcases biomarkerMapLookup bs "bun" with _ | bun <;>
        rcases biomarkerMapLookup bs "egfr" with _ | egfr <;>
        (try (dsimp only)) <;> (try split_ifs) <;> rfl
    · left; simp [hb]

/-- The metabolic block fires exactly when at least two factors hold. -/
theorem metabolicPatterns_of_ge (bs : List PatternBiomarker)
    (h : 2 ≤ metabolicRiskCount bs) :
    metabolicPatterns bs =
      [{ name := "Potential Metabolic Risk Pattern"
         description := "Your results show " ++ toString (metabolicRiskCount bs) ++
           " factors that may be associated with metabolic risk: " ++
           String.intercalate ", " (presentMetabolicFactors bs) ++ "."
         confidence := if 3 ≤ metabolicRiskCount bs then "high" else "medium"
         biomarkers := presentMetabolicFactors bs
         recommendation := "Consider discussing lifestyle factors such as diet and exercise with your healthcare provider." }] := by
  simp [metabolicPatterns, h]

/-- The metabolic block is empty when fewer than two factors hold. -/
theorem metabolicPatterns_of_lt (bs : List PatternBiomarker)
    (h : ¬ 2 ≤ metabolicRiskCount bs) : metabolicPatterns bs = [] := by
  simp [metabolicPatterns, h]

/-- C9: the metabolic-risk pattern appears in the detection result exactly
when at least 2 of the four factor conditions {glucose above,
triglycerides above, HDL below, LDL above} hold (each evaluated on the
name-keyed entry built from the input list), and its confidence is "high"
when at least 3 hold, "medium" otherwise. -/
theorem C9_metabolic_pattern_iff (bs : List PatternBiomarker) :
    ((∃ p ∈ identifyBiomarkerPatterns bs,
        p.name = "Potential Metabolic Risk Pattern") ↔
      2 ≤ metabolicRiskCount bs) ∧
    (∀ p ∈ identifyBiomarkerPatterns bs,
      p.name = "Potential Metabolic Risk Pattern" →
        p.confidence = if 3 ≤ metabolicRiskCount bs then "high" else "medium") := by
  have hA := anemiaPatterns_cases bs
  have hT := thyroidPatterns_cases bs
  have hK := kidneyPatterns_cases bs
  have hmem : ∀ p ∈ identifyBiomarkerPatterns bs,
      p.name = "Potential Metabolic Risk Pattern" → p ∈ metabolicPatterns bs := by
    intro p hp hname
    unfold identifyBiomarkerPatterns at hp
    simp only [List.mem_append] at hp
    rcases hp with ((h1 | h2) | h3) | h4
    · exfalso
      rcases hA with hA | ⟨q, hA, hq⟩
      · rw [hA] at h1; exact absurd h1 (List.not_mem_nil p)
      · rw [hA] at h1
        rw [List.mem_singleton.1 h1, hq] at hname
        exact absurd hname (by decide)
    · exact h2
    · exfalso
      rcases hT with hT | ⟨q, hT, hq⟩
      · rw [hT] at h3; exact absurd h3 (List.not_mem_nil p)
      · rw [hT] at h3
        rcases hq with hq | hq <;>
          rw [List.mem_singleton.1 h3, hq] at hname <;>
          exact absurd hname (by decide)
    · exfalso
      rcases hK with hK | ⟨q, hK, hq⟩
      · rw [hK] at h4; exact absurd h4 (List.not_mem_nil p)
      · rw [hK] at h4
        rw [List.mem_singleton.1 h4, hq] at hname
        exact absurd hname (by decide)
  constructor
  · constructor
    · rintro ⟨p, hp, hname⟩
      by_contra hc
      have := hmem p hp hname
      rw [metabolicPatterns_of_lt bs hc] at this
      exact absurd this (List.not_mem_nil p)
    · intro hc
      obtain ⟨q, hq, hqn⟩ : ∃ q, metabolicPatterns bs = [q] ∧
          q.name = "Potential Metabolic Risk Pattern" :=
        ⟨_, metabolicPatterns_of_ge bs hc, rfl⟩
      refine ⟨q, ?_, hqn⟩
      unfold identifyBiomarkerPatterns
      simp only [List.mem_append]
      exact Or.inl (Or.inl (Or.inr (hq ▸ List.mem_singleton.2 rfl)))
  · intro p hp hname
    have hpm := hmem p hp hname
    by_cases hc : 2 ≤ metabolicRiskCount bs
    · rw [metabolicPatterns_of_ge bs hc] at hpm
      rw [List.mem_singleton.1 hpm]
    · rw [metabolicPatterns_of_lt bs hc] at hpm
      exact absurd hpm (List.not_mem_nil p)

/-- C9 witness: a biomarker list with three metabolic factors (glucose
above, triglycerides above, HDL below) instantiating the theorem. -/
theorem C9_metabolic_pattern_iff_witness :
    ((∃ p ∈ identifyBiomarkerPatterns
        [⟨"glucose", "above_range"⟩, ⟨"triglycerides", "above_range"⟩,
          ⟨"hdl", "below_range"⟩],
        p.name = "Potential Metabolic Risk Pattern") ↔
      2 ≤ metabolicRiskCount
        [⟨"glucose", "above_range"⟩, ⟨"triglycerides", "above_range"⟩,
          ⟨"hdl", "below_range"⟩]) ∧
    (∀ p ∈ identifyBiomarkerPatterns
        [⟨"glucose", "above_range"⟩, ⟨"triglycerides", "above_range"⟩,
          ⟨"hdl", "below_range"⟩],
      p.name = "Potential Metabolic Risk Pattern" →
        p.confidence = if 3 ≤ metabolicRiskCount
          [⟨"glucose", "above_range"⟩, ⟨"triglycerides", "above_range"⟩,
            ⟨"hdl", "below_range"⟩] then "high" else "medium") :=
  C9_metabolic_pattern_iff
    [⟨"glucose", "above_range"⟩, ⟨"triglycerides", "above_range"⟩,
      ⟨"hdl", "below_range"⟩]

/-- C10: one evaluation emits at most four patterns, and at most one of
each kind — at most one anemia, one metabolic, one thyroid (the elevated-
and low-TSH variants counted together, hence mutually exclusive) and one
kidney pattern. -/
theorem C10_at_most_one_pattern_per_kind (bs : List PatternBiomarker) :
    (identifyBiomarkerPatterns bs).length ≤ 4 ∧
    (identifyBiomarkerPatterns bs).countP
      (fun p => p.name == "Potential Anemia Pattern") ≤ 1 ∧
    (identifyBiomarkerPatterns bs).countP
      (fun p => p.name == "Potential Metabolic Risk Pattern") ≤ 1 ∧
    (identifyBiomarkerPatterns bs).countP
      (fun p => p.name == "Elevated TSH Pattern" || p.name == "Low TSH Pattern") ≤ 1 ∧
    (identifyBiomarkerPatterns bs).countP
      (fun p => p.name == "Elevated Creatinine Pattern") ≤ 1 := by
  have hAf : anemiaPatterns bs = [] ∨ ∃ p, anemiaPatterns bs = [p] ∧
      (p.name == "Potential Anemia Pattern") = true ∧
      (p.name == "Potential Metabolic Risk Pattern") = false ∧
      (p.name == "Elevated TSH Pattern" || p.name == "Low TSH Pattern") = false ∧
      (p.name == "Elevated Creatinine Pattern") = false := by
    rcases anemiaPatterns_cases bs with h | ⟨p, h, hn⟩
    · exact Or.inl h
    · exact Or.inr ⟨p, h, by simp [hn], by simp [hn], by simp [hn], by simp [hn]⟩
  have hMf : metabolicPatterns bs = [] ∨ ∃ p, metabolicPatterns bs = [p] ∧
      (p.name == "Potential Anemia Pattern") = false ∧
      (p.name == "Potential Metabolic Risk Pattern") = true ∧
      (p.name == "Elevated TSH Pattern" || p.name == "Low TSH Pattern") = false ∧
      (p.name == "Elevated Creatinine Pattern") = false := by
    by_cases hc : 2 ≤ metabolicRiskCount bs
    · exact Or.inr ⟨_, metabolicPatterns_of_ge bs hc, by simp, by simp, by simp, by simp⟩
    · exact Or.inl (metabolicPatterns_of_lt bs hc)
  have hTf : thyroidPatterns bs = [] ∨ ∃ p, thyroidPatterns bs = [p] ∧
      (p.name == "Potential Anemia Pattern") = false ∧
      (p.name == "Potential Metabolic Risk Pattern") = false ∧
      (p.name == "Elevated TSH Pattern" || p.name == "Low TSH Pattern") = true ∧
      (p.name == "Elevated Creatinine Pattern") = false := by
    rcases thyroidPatterns_cases bs with h | ⟨p, h, hn | hn⟩
    · exact Or.inl h
    · exact Or.inr ⟨p, h, by simp [hn], by simp [hn], by simp [hn], by simp [hn]⟩
    · exact Or.inr ⟨p, h, by simp [hn], by simp [hn], by simp [hn], by simp [hn]⟩
  have hKf : kidneyPatterns bs = [] ∨ ∃ p, kidneyPatterns bs = [p] ∧
      (p.name == "Potential Anemia Pattern") = false ∧
      (p.name == "Potential Metabolic Risk Pattern") = false ∧
      (p.name == "Elevated TSH Pattern" || p.name == "Low TSH Pattern") = false ∧
      (p.name == "Elevated Creatinine Pattern") = true := by
    rcases kidneyPatterns_cases bs with h | ⟨p, h, hn⟩
    · exact Or.inl h
    · exact Or.inr ⟨p, h, by simp [hn], by simp [hn], by simp [hn], by simp [hn]⟩
  unfold identifyBiomarkerPatterns
  rcases hAf with hA | ⟨pa, hA, ha1, ha2, ha3, ha4⟩ <;>
    rcases hMf with hM | ⟨pm, hM, hm1, hm2, hm3, hm4⟩ <;>
    rcases hTf with hT | ⟨pt, hT, ht1, ht2, ht3, ht4⟩ <;>
    rcases hKf with hK | ⟨pk, hK, hk1, hk2, hk3, hk4⟩ <;>
    simp_all [List.countP_append, List.countP_cons]

/-- Sum of a constant list. -/
theorem list_sum_const {l : List ℚ} {c : ℚ} (h : ∀ v ∈ l, v = c) :
    l.sum = l.length * c := by
  induction l with
  | nil => simp
  | cons a t ih =>
    have ha : a = c := h a (List.mem_cons_self a t)
    have ht : t.sum = t.length * c := ih (fun v hv => h v (List.mem_cons_of_mem a hv))
    simp [ha, ht]
    ring

/-- The centered sum of squares of a constant list vanishes. -/
theorem var_sum_zero (l : List ℚ) (n : ℕ) (c : ℚ) (hn : l.length = n)
    (hc : ∀ v ∈ l, v = c) :
    ((List.range n).map (fun i =>
      (l.getD i 0 - l.sum / (n : ℚ)) * (l.getD i 0 - l.sum / (n : ℚ)))).sum = 0 := by
  apply List.sum_eq_zero
  intro z hz
  rw [List.mem_map] at hz
  obtain ⟨i, hi, rfl⟩ := hz
  rw [List.mem_range] at hi
  have hil : i < l.length := hn ▸ hi
  have hgd : l.getD i 0 = c := by
    rw [List.getD_eq_getElem l 0 hil]
    exact hc _ (l.getElem_mem hil)
  have hnz : (n : ℚ) ≠ 0 := by
    have : 0 < n := Nat.pos_of_ne_zero (by rintro rfl; exact Nat.not_lt_zero i hi)
    exact_mod_cast this.ne'
  have hmean : l.sum / (n : ℚ) = c := by
    rw [list_sum_const hc, hn]
    field_simp
  rw [hgd, hmean]
  ring

/-- C7: the Pearson correlation of equal-length lists is exactly 0 whenever
either list has zero variance (all its values equal): the
`stdX === 0 || stdY === 0` guard short-circuits the division, so the result
is never undefined. -/
theorem C7_pearson_zero_variance (x y : List ℚ) (hlen : x.length = y.length)
    (hvar : (∃ c, ∀ v ∈ x, v = c) ∨ (∃ c, ∀ v ∈ y, v = c)) :
    calculatePearsonCorrelation x y = 0 := by
  rcases hvar with ⟨c, hc⟩ | ⟨c, hc⟩
  · have h0 := var_sum_zero x x.length c rfl hc
    simp only [calculatePearsonCorrelation]
    rw [h0]
    simp
  · have h0 := var_sum_zero y x.length c hlen.symm hc
    simp only [calculatePearsonCorrelation]
    rw [h0]
    simp

/-- C7 witness: a constant list against a varying one. -/
theorem C7_pearson_zero_variance_witness :
    ([3, 3, 3] : List ℚ).length = ([1, 2, 5] : List ℚ).length ∧
    calculatePearsonCorrelation [3, 3, 3] [1, 2, 5] = 0 :=
  ⟨rfl, C7_pearson_zero_variance [3, 3, 3] [1, 2, 5] rfl
    (Or.inl ⟨3, by decide⟩)⟩

/-- Membership in the loop index pairs. -/
theorem mem_pairsUnder (n i j : ℕ) : (i, j) ∈ pairsUnder n ↔ i < j ∧ j < n := by
  simp only [pairsUnder, List.mem_flatMap, List.mem_map, List.mem_filter,
    List.mem_range, decide_eq_true_eq, Prod.mk.injEq]
  constructor
  · rintro ⟨a, ha, b, ⟨hb, hab⟩, rfl, rfl⟩
    exact ⟨hab, hb⟩
  · rintro ⟨hij, hjn⟩
    exact ⟨i, lt_trans hij hjn, j, ⟨hjn, hij⟩, rfl, rfl⟩

/-- The first name stored on an edge record. -/
theorem mkCorrelationEdge_biomarker1 (d : List (String × List (ℕ × ℚ))) (a b : ℕ) :
    (mkCorrelationEdge d a b).biomarker1 = (d.getD a ("", [])).1 := rfl

/-- The second name stored on an edge record. -/
theorem mkCorrelationEdge_biomarker2 (d : List (String × List (ℕ × ℚ))) (a b : ℕ) :
    (mkCorrelationEdge d a b).biomarker2 = (d.getD b ("", [])).1 := rfl

/-- With pairwise-distinct names, a name determines its position. -/
theorem name_index_inj (data : List (String × List (ℕ × ℚ)))
    (hnd : (data.map Prod.fst).Nodup) {a b : ℕ}
    (ha : a < data.length) (hb : b < data.length)
    (h : (data.getD a ("", [])).1 = (data.getD b ("", [])).1) : a = b := by
  have hma : a < (data.map Prod.fst).length := by simpa using ha
  have hmb : b < (data.map Prod.fst).length := by simpa using hb
  have h2 : (data.map Prod.fst).get ⟨a, hma⟩ = (data.map Prod.fst).get ⟨b, hmb⟩ := by
    simp only [List.get_eq_getElem, List.getElem_map]
    rw [← List.getD_eq_getElem data ("", []) ha, ← List.getD_eq_getElem data ("", []) hb]
    exact h
  have := (List.Nodup.get_inj_iff hnd).1 h2
  exact congrArg Fin.val this

/-- C8: an edge for the pair of series at positions `i < j` appears in the
correlation result exactly when the number of samples paired by exact
calendar-date match between the two series is at least 3; with fewer
matched dates the pair is silently absent (the function is total and
returns a list, never an error). -/
theorem C8_correlation_pair_iff (data : List (String × List (ℕ × ℚ)))
    (hnd : (data.map Prod.fst).Nodup) (i j : ℕ) (hij : i < j) (hj : j < data.length) :
    (∃ e ∈ calculateCorrelations data,
        e.biomarker1 = (data.getD i ("", [])).1 ∧
        e.biomarker2 = (data.getD j ("", [])).1) ↔
      3 ≤ (pairBiomarkerData (data.getD i ("", [])).2
        (data.getD j ("", [])).2).length := by
  constructor
  · rintro ⟨e, he, hb1, hb2⟩
    simp only [calculateCorrelations, List.mem_flatMap] at he
    obtain ⟨⟨a, b⟩, hmem, hin⟩ := he
    rw [mem_pairsUnder] at hmem
    obtain ⟨hab, hbn⟩ := hmem
    by_cases hlen : 3 ≤ (pairBiomarkerData (data.getD a ("", [])).2
        (data.getD b ("", [])).2).length
    · simp only [hlen, if_true, List.mem_singleton] at hin
      subst hin
      rw [mkCorrelationEdge_biomarker1] at hb1
      rw [mkCorrelationEdge_biomarker2] at hb2
      have hA : a = i := name_index_inj data hnd (lt_trans hab hbn) (lt_trans hij hj) hb1
      have hB : b = j := name_index_inj data hnd hbn hj hb2
      rw [hA, hB] at hlen
      exact hlen
    · simp only [hlen, if_false] at hin
      exact absurd hin (List.not_mem_nil e)
  · intro hlen
    refine ⟨mkCorrelationEdge data i j, ?_, rfl, rfl⟩
    simp only [calculateCorrelations, List.mem_flatMap]
    refine ⟨(i, j), (mem_pairsUnder _ _ _).2 ⟨hij, hj⟩, ?_⟩
    rw [if_pos hlen]
    exact List.mem_singleton.2 rfl

/-- C8 witness: two named series sharing exactly three dates produce an
edge; the hypotheses are discharged on concrete data. -/
theorem C8_correlation_pair_iff_witness :
    (([("glucose", [(1, 90), (2, 95), (3, 100)]),
        ("hba1c", [(1, 5), (2, 6), (3, 7)])] :
        List (String × List (ℕ × ℚ))).map Prod.fst).Nodup ∧
    ((∃ e ∈ calculateCorrelations
        [("glucose", [(1, 90), (2, 95), (3, 100)]), ("hba1c", [(1, 5), (2, 6), (3, 7)])],
        e.biomarker1 = (([("glucose", [(1, 90), (2, 95), (3, 100)]),
            ("hba1c", [(1, 5), (2, 6), (3, 7)])] :
            List (String × List (ℕ × ℚ))).getD 0 ("", [])).1 ∧
        e.biomarker2 = (([("glucose", [(1, 90), (2, 95), (3, 100)]),
            ("hba1c", [(1, 5), (2, 6), (3, 7)])] :
            List (String × List (ℕ × ℚ))).getD 1 ("", [])).1) ↔
      3 ≤ (pairBiomarkerData
        (([("glucose", [(1, 90), (2, 95), (3, 100)]),
            ("hba1c", [(1, 5), (2, 6), (3, 7)])] :
            List (String × List (ℕ × ℚ))).getD 0 ("", [])).2
        (([("glucose", [(1, 90), (2, 95), (3, 100)]),
            ("hba1c", [(1, 5), (2, 6), (3, 7)])] :
            List (String × List (ℕ × ℚ))).getD 1 ("", [])).2).length) :=
  ⟨by decide,
    C8_correlation_pair_iff
      [("glucose", [(1, 90), (2, 95), (3, 100)]), ("hba1c", [(1, 5), (2, 6), (3, 7)])]
      (by decide) 0 1 (by decide) (by decide)⟩

/-- Sum of pairwise products against a constant list. -/
theorem sum_zip_mul_const {x y : List ℚ} {c : ℚ} (hlen : x.length = y.length)
    (hc : ∀ v ∈ y, v = c) :
    ((x.zip y).map (fun p => p.1 * p.2)).sum = c * x.sum := by
  induction x generalizing y with
  | nil => simp
  | cons a t ih =>
    cases y with
    | nil => simp at hlen
    | cons b u =>
      have hb : b = c := hc b (List.mem_cons_self b u)
      have ht : ((t.zip u).map (fun p => p.1 * p.2)).sum = c * t.sum :=
        ih (by simpa using hlen) (fun v hv => hc v (List.mem_cons_of_mem b hv))
      simp [hb, ht]
      ring

/-- Every value of the sorted y-list of a constant series equals the
constant. -/
theorem trendYs_const {pts : List (ℚ × ℚ)} {c : ℚ}
    (hconst : ∀ p ∈ pts, p.2 = c) : ∀ v ∈ trendYs pts, v = c := by
  intro v hv
  rw [trendYs, List.mem_map] at hv
  obtain ⟨p, hp, rfl⟩ := hv
  rw [sortedByDate, List.mem_insertionSort] at hp
  exact hconst p hp

/-- Lengths of the x- and y-lists agree with the input length. -/
theorem normalizedDays_length (pts : List (ℚ × ℚ)) :
    (normalizedDays pts).length = pts.length := by
  simp [normalizedDays, sortedByDate, List.length_insertionSort]

/-- Length of the sorted y-list. -/
theorem trendYs_length (pts : List (ℚ × ℚ)) :
    (trendYs pts).length = pts.length := by
  simp [trendYs, sortedByDate, List.length_insertionSort]

/-- For a constant series the least-squares slope numerator vanishes. -/
theorem trendNumerator_zero (pts : List (ℚ × ℚ)) (c : ℚ)
    (hconst : ∀ p ∈ pts, p.2 = c) :
    ((normalizedDays pts).length : ℚ) *
        (((normalizedDays pts).zip (trendYs pts)).map (fun p => p.1 * p.2)).sum -
      (normalizedDays pts).sum * (trendYs pts).sum = 0 := by
  have hyc := trendYs_const hconst
  have hxy : (normalizedDays pts).length = (trendYs pts).length := by
    rw [normalizedDays_length, trendYs_length]
  rw [sum_zip_mul_const hxy hyc, list_sum_const hyc, hxy]
  ring

/-- For a constant series the slope is `0 / olsDenom` in JS arithmetic. -/
theorem trendRegression_slope (pts : List (ℚ × ℚ)) (c : ℚ)
    (hconst : ∀ p ∈ pts, p.2 = c) :
    (trendRegression pts).1 =
      JsVal.div (JsVal.num 0) (JsVal.num (olsDenom (normalizedDays pts))) := by
  simp only [trendRegression, linearRegression]
  rw [trendNumerator_zero pts c hconst]

/-- With a nonzero denominator, the constant-series slope is exactly 0. -/
theorem trendSlope_zero (pts : List (ℚ × ℚ)) (c : ℚ)
    (hconst : ∀ p ∈ pts, p.2 = c)
    (hD : olsDenom (normalizedDays pts) ≠ 0) :
    (trendRegression pts).1 = JsVal.num 0 := by
  rw [trendRegression_slope pts c hconst]
  simp [JsVal.div, hD]

/-- With a zero denominator the slope is `NaN` (0/0). -/
theorem trendSlope_nan (pts : List (ℚ × ℚ)) (c : ℚ)
    (hconst : ∀ p ∈ pts, p.2 = c)
    (hD : olsDenom (normalizedDays pts) = 0) :
    (trendRegression pts).1 = JsVal.nan := by
  rw [trendRegression_slope pts c hconst]
  simp [JsVal.div, hD]

/-- With a nonzero denominator the constant-series intercept is the
constant itself. -/
theorem trendIntercept_const (pts : List (ℚ × ℚ)) (c : ℚ)
    (h2 : 2 ≤ pts.length) (hconst : ∀ p ∈ pts, p.2 = c)
    (hD : olsDenom (normalizedDays pts) ≠ 0) :
    (trendRegression pts).2 = JsVal.num c := by
  have hyc := trendYs_const hconst
  have hysum := list_sum_const hyc
  have hxy : (normalizedDays pts).length = (trendYs pts).length := by
    rw [normalizedDays_length, trendYs_length]
  have hn : ((normalizedDays pts).length : ℚ) ≠ 0 := by
    rw [normalizedDays_length]
    have : 0 < pts.length := lt_of_lt_of_le (by norm_num) h2
    exact_mod_cast this.ne'
  have hslope := trendSlope_zero pts c hconst hD
  simp only [trendRegression, linearRegression] at hslope ⊢
  rw [hslope, hysum, hxy]
  simp only [JsVal.mul, JsVal.sub, JsVal.div]
  rw [if_neg (by rw [← hxy]; exact hn)]
  congr 1
  have hn2 : ((trendYs pts).length : ℚ) ≠ 0 := by rw [← hxy]; exact hn
  field_simp

/-- With slope 0 and intercept `c`, every predicted value is the constant. -/
theorem predictedValues_const (pts : List (ℚ × ℚ)) (c : ℚ)
    (h2 : 2 ≤ pts.length) (hconst : ∀ p ∈ pts, p.2 = c)
    (hD : olsDenom (normalizedDays pts) ≠ 0) :
    ∀ v ∈ predictedValues pts, v = JsVal.num c := by
  intro v hv
  rw [predictedValues, List.mem_map] at hv
  obtain ⟨xv, hxv, rfl⟩ := hv
  rw [trendSlope_zero pts c hconst hD, trendIntercept_const pts c h2 hconst hD]
  simp [JsVal.mul, JsVal.add]

/-- All residuals of a constant series vanish (nonzero denominator case). -/
theorem residuals_zero (pts : List (ℚ × ℚ)) (c : ℚ)
    (h2 : 2 ≤ pts.length) (hconst : ∀ p ∈ pts, p.2 = c)
    (hD : olsDenom (normalizedDays pts) ≠ 0) :
    ∀ r ∈ residuals pts, r = JsVal.num 0 := by
  intro r hr
  rw [residuals, List.mem_map] at hr
  obtain ⟨⟨p1, p2⟩, hp, rfl⟩ := hr
  obtain ⟨h1, hpred⟩ := List.of_mem_zip hp
  rw [trendYs_const hconst p1 h1,
    predictedValues_const pts c h2 hconst hD p2 hpred]
  simp [JsVal.sub]

/-- All residuals are `NaN` when the slope is `NaN` (zero denominator). -/
theorem residuals_nan (pts : List (ℚ × ℚ)) (c : ℚ)
    (hconst : ∀ p ∈ pts, p.2 = c)
    (hD : olsDenom (normalizedDays pts) = 0) :
    ∀ r ∈ residuals pts, r = JsVal.nan := by
  intro r hr
  rw [residuals, List.mem_map] at hr
  obtain ⟨⟨p1, p2⟩, hp, rfl⟩ := hr
  obtain ⟨h1, hpred⟩ := List.of_mem_zip hp
  rw [predictedValues, List.mem_map] at hpred
  obtain ⟨xv, hxv, rfl⟩ := hpred
  rw [trendSlope_nan pts c hconst hD]
  have hmul : JsVal.mul JsVal.nan (JsVal.num xv) = JsVal.nan := rfl
  have hadd : JsVal.add JsVal.nan ((trendRegression pts).2) = JsVal.nan := by
    cases (trendRegression pts).2 <;> rfl
  simp [hmul, hadd, JsVal.sub]

/-- The residual list has one entry per input point. -/
theorem residuals_length (pts : List (ℚ × ℚ)) :
    (residuals pts).length = pts.length := by
  simp [residuals, predictedValues, trendYs_length, normalizedDays_length,
    trendYs, normalizedDays, sortedByDate, List.length_insertionSort]

/-- The squared-residual accumulator stays 0 on all-zero residuals. -/
theorem jsSumSq_zero (l : List JsVal) (h : ∀ v ∈ l, v = JsVal.num 0) :
    l.foldl (fun sum val => JsVal.add sum (JsVal.mul val val)) (JsVal.num 0) =
      JsVal.num 0 := by
  induction l with
  | nil => rfl
  | cons a t ih =>
    have ha : a = JsVal.num 0 := h a (List.mem_cons_self a t)
    subst ha
    simp only [List.foldl_cons, JsVal.mul, JsVal.add]
    norm_num
    exact ih (fun v hv => h v (List.mem_cons_of_mem _ hv))

/-- A `NaN` accumulator absorbs the rest of the fold. -/
theorem jsSumSq_acc_nan (l : List JsVal) :
    l.foldl (fun sum val => JsVal.add sum (JsVal.mul val val)) JsVal.nan =
      JsVal.nan := by
  induction l with
  | nil => rfl
  | cons a t ih =>
    simp only [List.foldl_cons]
    have h1 : JsVal.add JsVal.nan (JsVal.mul a a) = JsVal.nan := by
      cases h : JsVal.mul a a <;> rfl
    rw [h1]
    exact ih

/-- The squared-residual sum of a nonempty all-`NaN` list is `NaN`. -/
theorem jsSumSq_nan (l : List JsVal) (hne : l ≠ [])
    (h : ∀ v ∈ l, v = JsVal.nan) :
    l.foldl (fun sum val => JsVal.add sum (JsVal.mul val val)) (JsVal.num 0) =
      JsVal.nan := by
  cases l with
  | nil => exact absurd rfl hne
  | cons a t =>
    have ha : a = JsVal.nan := h a (List.mem_cons_self a t)
    subst ha
    simp only [List.foldl_cons]
    have h1 : JsVal.add (JsVal.num 0) (JsVal.mul JsVal.nan JsVal.nan) =
        JsVal.nan := rfl
    rw [h1]
    exact jsSumSq_acc_nan t

/-- The total sum of squares of a constant series is 0. -/
theorem totalSumSquares_zero (pts : List (ℚ × ℚ)) (c : ℚ)
    (hconst : ∀ p ∈ pts, p.2 = c) : totalSumSquares pts = 0 := by
  have hyc := trendYs_const hconst
  simp only [totalSumSquares]
  apply List.sum_eq_zero
  intro z hz
  rw [List.mem_map] at hz
  obtain ⟨v, hv, rfl⟩ := hz
  have hvc : v = c := hyc v hv
  have hlen0 : (trendYs pts).length ≠ 0 := by
    intro h0
    rw [List.length_eq_zero] at h0
    rw [h0] at hv
    exact absurd hv (List.not_mem_nil v)
  have hmean : (trendYs pts).sum / ((trendYs pts).length : ℚ) = c := by
    rw [list_sum_const hyc]
    have : ((trendYs pts).length : ℚ) ≠ 0 := by exact_mod_cast hlen0
    field_simp
  rw [hvc, hmean]
  ring

/-- C4 (amended): for a constant series of at least two points the code
computes `rSquared = 1 - SSres/SStot` with `SStot = 0` and no guard, so the
reported `rSquared` is `NaN`, not 1; the slope is 0 whenever the
least-squares denominator is nonzero (i.e. the sample dates are not all
identical). -/
theorem C4_constant_series_trend (name : String) (pts : List (ℚ × ℚ)) (c : ℚ)
    (h2 : 2 ≤ pts.length) (hconst : ∀ p ∈ pts, p.2 = c) :
    (calculateTrend name pts).rSquared = JsVal.nan ∧
    (olsDenom (normalizedDays pts) ≠ 0 →
      (calculateTrend name pts).slope = JsVal.num 0) := by
  have hrs : trendRSquared pts = JsVal.nan := by
    by_cases hD : olsDenom (normalizedDays pts) = 0
    · have hne : residuals pts ≠ [] := by
        intro h0
        have := residuals_length pts
        rw [h0] at this
        simp at this
        omega
      have hssres : residualSumSquares pts = JsVal.nan :=
        jsSumSq_nan _ hne (residuals_nan pts c hconst hD)
      rw [trendRSquared, hssres]
      rfl
    · have hssres : residualSumSquares pts = JsVal.num 0 :=
        jsSumSq_zero _ (residuals_zero pts c h2 hconst hD)
      have hstot : totalSumSquares pts = 0 := totalSumSquares_zero pts c hconst
      rw [trendRSquared, hssres, hstot]
      simp [JsVal.div, JsVal.sub]
  refine ⟨?_, ?_⟩
  · show jsToFixed2 (trendRSquared pts) = JsVal.nan
    rw [hrs]
    rfl
  · intro hD
    show (trendRegression pts).1 = JsVal.num 0
    exact trendSlope_zero pts c hconst hD

/-- C4 counterexample: a 2-point constant series (values 5 at days 0 and
1) has `SStot = 0` and `SSres = 0`, so the code computes
`rSquared = 1 - 0/0 = NaN` — not the claimed `rSquared = 1`. -/
theorem C4_counterexample_rsquared_nan :
    (calculateTrend "glucose" [(0, 5), (86400000, 5)]).rSquared = JsVal.nan ∧
    (calculateTrend "glucose" [(0, 5), (86400000, 5)]).rSquared ≠ JsVal.num 1 := by
  have h : (calculateTrend "glucose" [(0, 5), (86400000, 5)]).rSquared = JsVal.nan := by
    norm_num [calculateTrend, trendRSquared, residualSumSquares, residuals,
      predictedValues, trendRegression, trendYs, normalizedDays, sortedByDate,
      listMin, linearRegression, olsDenom, jsToFixed2, totalSumSquares,
      List.insertionSort, List.orderedInsert,
      JsVal.div, JsVal.sub, JsVal.add, JsVal.mul]
  refine ⟨h, ?_⟩
  rw [h]
  simp

/-- C4 witness: the amended statement at the same concrete 2-point
constant series. -/
theorem C4_constant_series_trend_witness :
    2 ≤ ([((0 : ℚ), (5 : ℚ)), (86400000, 5)] : List (ℚ × ℚ)).length ∧
    (∀ p ∈ ([((0 : ℚ), (5 : ℚ)), (86400000, 5)] : List (ℚ × ℚ)), p.2 = 5) ∧
    ((calculateTrend "hdl" [(0, 5), (86400000, 5)]).rSquared = JsVal.nan ∧
      (olsDenom (normalizedDays [(0, 5), (86400000, 5)]) ≠ 0 →
        (calculateTrend "hdl" [(0, 5), (86400000, 5)]).slope = JsVal.num 0)) :=
  ⟨by norm_num, by decide,
    C4_constant_series_trend "hdl" [(0, 5), (86400000, 5)] 5 (by norm_num) (by decide)⟩

end HealthInsight